import Mathlib

/-!
Verification of the Bedrock completion adapter
(`src/src-tauri/src/bedrock_client.rs`).

The adapter marshals prompts into the AWS Bedrock `converse` request shape
and decodes the response back into a plain string, optionally forcing a
structured tool call.  We shallowly embed the data model
(`serde_json::Value`, `aws_smithy_types::Document`, the SDK message and
tool types) and the pure portions of the source: `json_to_document`,
`extract_string_field`, `extract_text_from_content`,
`extract_text_from_response`, the response-decoding tail of
`send_bedrock_structured_completion`, and the request-construction code.
Network dispatch and credential loading are external and not modelled.
-/

namespace Bedrock

/-- IEEE-754 double values, represented symbolically: either a raw bit
pattern or the conversion of an integer.  No floating-point arithmetic is
modelled; the adapter only carries float payloads through unchanged. -/
inductive F64 where
  | bits (b : Nat)
  | ofInt (i : Int)
deriving DecidableEq, Repr

/-- Modelled from the spec (and the `serde_json` crate, which is not part of
this repository): the internal representation of `serde_json::Number` —
a non-negative 64-bit integer, a negative 64-bit integer, or a float. -/
inductive JNumber where
  | posInt (u : Nat)
  | negInt (i : Int)
  | float (f : F64)
deriving DecidableEq, Repr

/-- Modelled from the spec: `serde_json::Number::as_i64` — the value when it
is an integer representable in signed 64-bit range ("fits a signed 64-bit
range"), otherwise nothing. -/
def JNumber.as_i64 : JNumber → Option Int
  | .posInt u => if u ≤ 2 ^ 63 - 1 then some (Int.ofNat u) else none
  | .negInt i => some i
  | .float _ => none

/-- Modelled from the spec: `serde_json::Number::as_u64` — the value when it
is a non-negative integer ("unsigned 64-bit if it fits and is
non-negative"), otherwise nothing. -/
def JNumber.as_u64 : JNumber → Option Nat
  | .posInt u => some u
  | .negInt _ => none
  | .float _ => none

/-- Modelled from the spec: `serde_json::Number::as_f64` — every number has
a floating-point reading ("else floating-point"); integers convert, floats
are returned unchanged. -/
def JNumber.as_f64 : JNumber → Option F64
  | .posInt u => some (F64.ofInt (Int.ofNat u))
  | .negInt i => some (F64.ofInt i)
  | .float f => some f

/-- The local JSON model, `serde_json::Value`.  Objects are association
lists of key/value pairs with keys preserved verbatim. -/
inductive Json where
  | null
  | bool (b : Bool)
  | num (n : JNumber)
  | str (s : String)
  | arr (xs : List Json)
  | obj (kvs : List (String × Json))
deriving Repr

/-- `aws_smithy_types::Number`: the numeric payloads of the wire value. -/
inductive SmithyNumber where
  | posInt (u : Nat)
  | negInt (i : Int)
  | float (f : F64)
deriving DecidableEq, Repr

/-- The wire value, `aws_smithy_types::Document`.  Objects are association
lists of key/value pairs. -/
inductive Document where
  | null
  | bool (b : Bool)
  | number (n : SmithyNumber)
  | str (s : String)
  | array (xs : List Document)
  | object (kvs : List (String × Document))
deriving Repr

mutual

/-- `json_to_document` (bedrock_client.rs lines 33-58): convert a
`serde_json::Value` into an `aws_smithy_types::Document`.  Numbers try
`as_i64`, then `as_u64`, then `as_f64`, else null. -/
def json_to_document : Json → Document
  | .null => Document.null
  | .bool b => Document.bool b
  | .num n =>
      match n.as_i64 with
      | some i => Document.number (SmithyNumber.negInt i)
      | none =>
          match n.as_u64 with
          | some u => Document.number (SmithyNumber.posInt u)
          | none =>
              match n.as_f64 with
              | some f => Document.number (SmithyNumber.float f)
              | none => Document.null
  | .str s => Document.str s
  | .arr xs => Document.array (jsons_to_documents xs)
  | .obj kvs => Document.object (json_pairs_to_documents kvs)

/-- Elementwise `json_to_document` on an array's elements
(the `arr.iter().map(json_to_document).collect()` of line 50). -/
def jsons_to_documents : List Json → List Document
  | [] => []
  | x :: xs => json_to_document x :: jsons_to_documents xs

/-- Elementwise `json_to_document` on an object's values, keys cloned
verbatim (lines 52-56). -/
def json_pairs_to_documents : List (String × Json) → List (String × Document)
  | [] => []
  | (k, v) :: rest => (k, json_to_document v) :: json_pairs_to_documents rest

end

/-- `extract_string_field` (lines 61-68): extract a string field from a
`Document::Object`; `None` in every other case, never an error. -/
def extract_string_field : Document → String → Option String
  | .object map, field =>
      (match map.lookup field with
        | some (Document.str s) => some s
        | _ => none)
  | _, _ => none

/-- Field name used for the structured output tool (line 14). -/
def TRANSCRIPTION_FIELD : String := "transcription"

/-- Tool name for structured output (line 16). -/
def TOOL_NAME : String := "transcription_output"

/-- `aws_sdk_bedrockruntime::types::ToolUseBlock`: a tool invocation,
carrying the tool name and the input document (the id is unused by the
adapter and omitted). -/
structure ToolUseBlock where
  name : String
  input : Document
deriving Repr

/-- `aws_sdk_bedrockruntime::types::ContentBlock`: a typed unit of message
content.  The adapter inspects only the text and tool-use variants; all
other variants (image, document, tool result, ...) are collapsed into
`other`. -/
inductive ContentBlock where
  | text (s : String)
  | toolUse (tu : ToolUseBlock)
  | other
deriving Repr

/-- `aws_sdk_bedrockruntime::types::ConversationRole`. -/
inductive ConversationRole where
  | user
  | assistant
deriving DecidableEq, Repr

/-- `aws_sdk_bedrockruntime::types::Message`: a role-tagged list of content
blocks. -/
structure Message where
  role : ConversationRole
  content : List ContentBlock
deriving Repr

/-- `aws_sdk_bedrockruntime::types::SystemContentBlock`; the adapter only
builds the text variant. -/
inductive SystemContentBlock where
  | text (s : String)
deriving Repr

/-- `aws_sdk_bedrockruntime::types::ConverseOutput` (the response union):
a message, or some other union variant. -/
inductive ConverseOutputKind where
  | message (m : Message)
  | other
deriving Repr

/-- The converse operation's response, as consumed by the adapter: an
optional output union. -/
structure ConverseResponse where
  output : Option ConverseOutputKind
deriving Repr

/-- `extract_text_from_content` (lines 233-244): the first text content
block, scanned in order; error when none is text. -/
def extract_text_from_content : List ContentBlock → Except String String
  | [] => Except.error "Bedrock response contains no text content"
  | ContentBlock.text t :: _ => Except.ok t
  | _ :: rest => extract_text_from_content rest

/-- `extract_text_from_response` (lines 217-230): require an output, require
it to be a message, then extract text from its content. -/
def extract_text_from_response (response : ConverseResponse) : Except String String :=
  match response.output with
  | none => Except.error "Bedrock returned an empty response"
  | some (ConverseOutputKind.message msg) => extract_text_from_content msg.content
  | some ConverseOutputKind.other => Except.error "Unexpected response type from Bedrock"

/-- The tool-use scan loop of `send_bedrock_structured_completion`
(lines 197-209): the first tool-use block named `TOOL_NAME` whose input
yields the transcription field; a matching block lacking the field falls
through and the scan continues. -/
def scan_tool_use : List ContentBlock → Option String
  | [] => none
  | ContentBlock.toolUse tu :: rest =>
      if tu.name = TOOL_NAME then
        match extract_string_field tu.input TRANSCRIPTION_FIELD with
        | some text => some text
        | none => scan_tool_use rest
      else scan_tool_use rest
  | _ :: rest => scan_tool_use rest

/-- The yield of one iteration of the tool-use scan loop (lines 198-207):
the extracted field when the block is a tool use named `TOOL_NAME`, nothing
otherwise. -/
def tool_yield : ContentBlock → Option String
  | ContentBlock.toolUse tu =>
      if tu.name = TOOL_NAME then extract_string_field tu.input TRANSCRIPTION_FIELD
      else none
  | _ => none

/-- The response-decoding tail of `send_bedrock_structured_completion`
(lines 187-213): require an output, require a message, scan for a usable
tool-use block, and otherwise fall back to plain text extraction. -/
def structured_decode (response : ConverseResponse) : Except String String :=
  match response.output with
  | none => Except.error "Bedrock returned an empty response"
  | some (ConverseOutputKind.message msg) =>
      match scan_tool_use msg.content with
      | some text => Except.ok text
      | none => extract_text_from_content msg.content
  | some ConverseOutputKind.other => Except.error "Unexpected response type from Bedrock"

/-- `aws_sdk_bedrockruntime::types::ToolSpecification` with its JSON input
schema (`ToolInputSchema::Json`). -/
structure ToolSpecification where
  name : String
  description : String
  input_schema : Document
deriving Repr

/-- `aws_sdk_bedrockruntime::types::ToolChoice`; the adapter only builds
the specific-tool variant (`ToolChoice::Tool(SpecificToolChoice)`). -/
inductive ToolChoice where
  | auto
  | any
  | tool (name : String)
deriving DecidableEq, Repr

/-- `aws_sdk_bedrockruntime::types::ToolConfiguration`: the tool list and
the tool choice attached to a converse request. -/
structure ToolConfiguration where
  tools : List ToolSpecification
  tool_choice : ToolChoice
deriving Repr

/-- The converse request, as the adapter populates it: model id, messages,
optional system content blocks, optional tool configuration. -/
structure ConverseRequest where
  model_id : String
  messages : List Message
  system : Option (List SystemContentBlock)
  tool_config : Option ToolConfiguration
deriving Repr

/-- The structured-output JSON schema built by
`send_bedrock_structured_completion` (lines 138-148, the `serde_json::json!`
literal): an object schema with the single required string property
`TRANSCRIPTION_FIELD` and additional properties disallowed. -/
def schema_json : Json :=
  Json.obj
    [ ("type", Json.str "object"),
      ("properties", Json.obj
        [ (TRANSCRIPTION_FIELD, Json.obj
            [ ("type", Json.str "string"),
              ("description", Json.str "The cleaned and processed transcription text") ]) ]),
      ("required", Json.arr [Json.str TRANSCRIPTION_FIELD]),
      ("additionalProperties", Json.bool false) ]

/-- The tool configuration built by `send_bedrock_structured_completion`
(lines 149-169): one tool specification carrying the schema as its input
schema, and a forced choice of that tool by name.  The builders cannot fail
here since the required names are supplied. -/
def structured_tool_config : ToolConfiguration :=
  { tools :=
      [ { name := TOOL_NAME,
          description := "Output the processed transcription text",
          input_schema := json_to_document schema_json } ],
    tool_choice := ToolChoice.tool TOOL_NAME }

/-- The request construction shared by both completion functions
(lines 85-100 and 129-179): one user-role message holding a single text
content block equal to the user prompt, the system prompt (when present)
attached as a separate system-level text block, and — in structured
mode — the tool configuration. -/
def build_request (model_id : String) (system_prompt : Option String)
    (user_prompt : String) (tool_config : Option ToolConfiguration) : ConverseRequest :=
  let system := system_prompt.map (fun text => [SystemContentBlock.text text])
  let user_message : Message :=
    { role := ConversationRole.user, content := [ContentBlock.text user_prompt] }
  { model_id := model_id,
    messages := [user_message],
    system := system,
    tool_config := tool_config }

/-- The outbound request of `send_bedrock_completion` (lines 85-100): no
tool configuration. -/
def plain_request (model_id : String) (system_prompt : Option String)
    (user_prompt : String) : ConverseRequest :=
  build_request model_id system_prompt user_prompt none

/-- The outbound request of `send_bedrock_structured_completion`
(lines 129-179): the structured tool configuration is attached. -/
def structured_request (model_id : String) (system_prompt : Option String)
    (user_prompt : String) : ConverseRequest :=
  build_request model_id system_prompt user_prompt (some structured_tool_config)

mutual

/-- Modelled from the spec: the natural inverse of `json_to_document` on the
six supported shapes, mapping a wire value back to the local JSON model.
A signed-integer wire number that is non-negative reads back as the
non-negative integer variant, matching how `serde_json::Number` represents
non-negative integers. -/
def document_to_json : Document → Json
  | .null => Json.null
  | .bool b => Json.bool b
  | .number (SmithyNumber.negInt i) =>
      Json.num (if 0 ≤ i then JNumber.posInt i.toNat else JNumber.negInt i)
  | .number (SmithyNumber.posInt u) => Json.num (JNumber.posInt u)
  | .number (SmithyNumber.float f) => Json.num (JNumber.float f)
  | .str s => Json.str s
  | .array xs => Json.arr (documents_to_jsons xs)
  | .object kvs => Json.obj (document_pairs_to_jsons kvs)

/-- Elementwise `document_to_json` on an array. -/
def documents_to_jsons : List Document → List Json
  | [] => []
  | x :: xs => document_to_json x :: documents_to_jsons xs

/-- Elementwise `document_to_json` on an object's values. -/
def document_pairs_to_jsons : List (String × Document) → List (String × Json)
  | [] => []
  | (k, v) :: rest => (k, document_to_json v) :: document_pairs_to_jsons rest

end

/-- Well-formedness of a `JNumber` as a `serde_json::Number`: the
non-negative variant holds an unsigned 64-bit value, the negative variant a
negative signed 64-bit value ("integral numbers within 64-bit range"). -/
def JNumber.wf : JNumber → Bool
  | .posInt u => u < 2 ^ 64
  | .negInt i => -(2 ^ 63) ≤ i && i < 0
  | .float _ => true

mutual

/-- Well-formedness of a `Json` value: every number it contains satisfies
the `serde_json::Number` representation invariant. -/
def Json.wf : Json → Bool
  | .null => true
  | .bool _ => true
  | .num n => n.wf
  | .str _ => true
  | .arr xs => Json.list_wf xs
  | .obj kvs => Json.pairs_wf kvs

/-- Well-formedness of a list of `Json` values. -/
def Json.list_wf : List Json → Bool
  | [] => true
  | x :: xs => Json.wf x && Json.list_wf xs

/-- Well-formedness of an object's key/value pairs. -/
def Json.pairs_wf : List (String × Json) → Bool
  | [] => true
  | (_, v) :: rest => Json.wf v && Json.pairs_wf rest

end

/-! Helper lemmas about the scan loops. -/

theorem extract_text_cons_skip (b : ContentBlock)
    (hnt : ∀ s, b ≠ ContentBlock.text s) (rest : List ContentBlock) :
    extract_text_from_content (b :: rest) = extract_text_from_content rest := by
  cases b with
  | text s => exact absurd rfl (hnt s)
  | toolUse tu => rfl
  | other => rfl

theorem extract_text_first (pre : List ContentBlock) (t : String)
    (rest : List ContentBlock)
    (hpre : ∀ b ∈ pre, ∀ s, b ≠ ContentBlock.text s) :
    extract_text_from_content (pre ++ ContentBlock.text t :: rest) = Except.ok t := by
  induction pre with
  | nil => rfl
  | cons b pre ih =>
      rw [List.cons_append,
        extract_text_cons_skip b (fun s => hpre b (List.mem_cons_self b pre) s)]
      exact ih (fun b' hb' => hpre b' (List.mem_cons_of_mem b hb'))

theorem extract_text_no_text (content : List ContentBlock)
    (h : ∀ b ∈ content, ∀ s, b ≠ ContentBlock.text s) :
    extract_text_from_content content =
      Except.error "Bedrock response contains no text content" := by
  induction content with
  | nil => rfl
  | cons b rest ih =>
      rw [extract_text_cons_skip b (fun s => h b (List.mem_cons_self b rest) s)]
      exact ih (fun b' hb' => h b' (List.mem_cons_of_mem b hb'))

theorem scan_cons_none (b : ContentBlock) (hb : tool_yield b = none)
    (rest : List ContentBlock) :
    scan_tool_use (b :: rest) = scan_tool_use rest := by
  cases b with
  | text s => rfl
  | other => rfl
  | toolUse tu =>
      simp only [tool_yield] at hb
      by_cases hn : tu.name = TOOL_NAME
      · rw [if_pos hn] at hb
        simp only [scan_tool_use, if_pos hn, hb]
      · simp only [scan_tool_use, if_neg hn]

theorem scan_cons_some (b : ContentBlock) (s : String)
    (hb : tool_yield b = some s) (rest : List ContentBlock) :
    scan_tool_use (b :: rest) = some s := by
  cases b with
  | text t => simp [tool_yield] at hb
  | other => simp [tool_yield] at hb
  | toolUse tu =>
      simp only [tool_yield] at hb
      by_cases hn : tu.name = TOOL_NAME
      · rw [if_pos hn] at hb
        simp only [scan_tool_use, if_pos hn, hb]
      · rw [if_neg hn] at hb
        exact absurd hb (by simp)

theorem scan_none (content : List ContentBlock)
    (h : ∀ b ∈ content, tool_yield b = none) :
    scan_tool_use content = none := by
  induction content with
  | nil => rfl
  | cons b rest ih =>
      rw [scan_cons_none b (h b (List.mem_cons_self b rest)) rest]
      exact ih (fun b' hb' => h b' (List.mem_cons_of_mem b hb'))

theorem structured_decode_cons_skip (b : ContentBlock)
    (hb : tool_yield b = none) (hnt : ∀ s, b ≠ ContentBlock.text s)
    (role : ConversationRole) (rest : List ContentBlock) :
    structured_decode ⟨some (ConverseOutputKind.message ⟨role, b :: rest⟩)⟩ =
      structured_decode ⟨some (ConverseOutputKind.message ⟨role, rest⟩)⟩ := by
  simp only [structured_decode, scan_cons_none b hb rest,
    extract_text_cons_skip b hnt rest]

/-- C6: `extract_string_field doc f` returns `some s` exactly when `doc` is
an object-shaped wire value whose entry at key `f` is the string `s`
(returned unchanged); in every other case — `doc` not object-shaped, key
absent, or key mapped to a non-string value — it returns `none`, never an
error. -/
theorem extract_string_field_characterization (doc : Document) (field s : String) :
    extract_string_field doc field = some s ↔
      ∃ map, doc = Document.object map ∧
        map.lookup field = some (Document.str s) := by
  cases doc with
  | object kvs =>
      simp only [extract_string_field, Document.object.injEq]
      constructor
      · intro h
        refine ⟨kvs, rfl, ?_⟩
        cases hl : List.lookup field kvs with
        | none => rw [hl] at h; cases h
        | some d => cases d <;> rw [hl] at h <;> simp_all
      · rintro ⟨map, hmap, hl⟩
        cases hmap
        rw [hl]
  | null => simp [extract_string_field]
  | bool b => simp [extract_string_field]
  | number n => simp [extract_string_field]
  | str t => simp [extract_string_field]
  | array xs => simp [extract_string_field]

/-- C3: `send_bedrock_completion`'s response decoding: absent output fails
with the empty-response error; a non-message output fails with the
unexpected-shape error; a message yields the first text content block
scanned in order; a message with no text block fails with the
no-text-content error. -/
theorem extract_text_from_response_characterization :
    (∀ r : ConverseResponse, r.output = none →
        extract_text_from_response r =
          Except.error "Bedrock returned an empty response") ∧
    (∀ r : ConverseResponse, r.output = some ConverseOutputKind.other →
        extract_text_from_response r =
          Except.error "Unexpected response type from Bedrock") ∧
    (∀ (r : ConverseResponse) (msg : Message) (pre : List ContentBlock)
        (t : String) (rest : List ContentBlock),
        r.output = some (ConverseOutputKind.message msg) →
        msg.content = pre ++ ContentBlock.text t :: rest →
        (∀ b ∈ pre, ∀ s, b ≠ ContentBlock.text s) →
        extract_text_from_response r = Except.ok t) ∧
    (∀ (r : ConverseResponse) (msg : Message),
        r.output = some (ConverseOutputKind.message msg) →
        (∀ b ∈ msg.content, ∀ s, b ≠ ContentBlock.text s) →
        extract_text_from_response r =
          Except.error "Bedrock response contains no text content") := by
  refine ⟨?_, ?_, ?_, ?_⟩
  · intro r h
    obtain ⟨o⟩ := r
    cases h
    rfl
  · intro r h
    obtain ⟨o⟩ := r
    cases h
    rfl
  · intro r msg pre t rest hout hcontent hpre
    obtain ⟨o⟩ := r
    cases hout
    show extract_text_from_content msg.content = Except.ok t
    rw [hcontent]
    exact extract_text_first pre t rest hpre
  · intro r msg hout hnone
    obtain ⟨o⟩ := r
    cases hout
    show extract_text_from_content msg.content = _
    exact extract_text_no_text msg.content hnone

/-- Witness for C3: a message whose content is a non-text block followed by
`Text("ok")` decodes to `"ok"`. -/
theorem extract_text_from_response_characterization_witness :
    extract_text_from_response
      ⟨some (ConverseOutputKind.message
        ⟨ConversationRole.assistant, [ContentBlock.other, ContentBlock.text "ok"]⟩)⟩ =
      Except.ok "ok" :=
  extract_text_from_response_characterization.2.2.1 _ _
    [ContentBlock.other] "ok" [] rfl rfl (by simp)

/-- C7: for a response whose output is absent, both the plain decoding and
the structured decoding fail, with the same error string
"Bedrock returned an empty response". -/
theorem empty_response_same_error (r : ConverseResponse) (h : r.output = none) :
    extract_text_from_response r =
        Except.error "Bedrock returned an empty response" ∧
      structured_decode r =
        Except.error "Bedrock returned an empty response" := by
  obtain ⟨o⟩ := r
  cases h
  exact ⟨rfl, rfl⟩

/-- Witness for C7 at the concrete output-less response. -/
theorem empty_response_same_error_witness :
    extract_text_from_response ⟨none⟩ =
        Except.error "Bedrock returned an empty response" ∧
      structured_decode ⟨none⟩ =
        Except.error "Bedrock returned an empty response" :=
  empty_response_same_error ⟨none⟩ rfl

/-- C1: when the first tool-use block named `TOOL_NAME` whose input yields
the string field `TRANSCRIPTION_FIELD` yields `s` (no earlier block
yields), the structured decoding returns `Ok s` — that exact string. -/
theorem structured_decode_tool_use_success (pre rest : List ContentBlock)
    (tu : ToolUseBlock) (s : String) (role : ConversationRole)
    (hpre : ∀ b ∈ pre, tool_yield b = none)
    (hname : tu.name = TOOL_NAME)
    (hfield : extract_string_field tu.input TRANSCRIPTION_FIELD = some s) :
    structured_decode
        ⟨some (ConverseOutputKind.message
          ⟨role, pre ++ ContentBlock.toolUse tu :: rest⟩)⟩ =
      Except.ok s := by
  have hscan : scan_tool_use (pre ++ ContentBlock.toolUse tu :: rest) = some s := by
    induction pre with
    | nil =>
        exact scan_cons_some (ContentBlock.toolUse tu) s
          (by simp only [tool_yield, if_pos hname, hfield]) rest
    | cons b pre ih =>
        rw [List.cons_append,
          scan_cons_none b (hpre b (List.mem_cons_self b pre)) _]
        exact ih (fun b' hb' => hpre b' (List.mem_cons_of_mem b hb'))
  simp only [structured_decode, hscan]

/-- Witness for C1: the message
`[ToolUse(name="transcription_output", input={"transcription": "hello"})]`
decodes to `"hello"`. -/
theorem structured_decode_tool_use_success_witness :
    structured_decode
        ⟨some (ConverseOutputKind.message
          ⟨ConversationRole.assistant,
            [ContentBlock.toolUse
              ⟨"transcription_output",
                Document.object [("transcription", Document.str "hello")]⟩]⟩)⟩ =
      Except.ok "hello" :=
  structured_decode_tool_use_success [] []
    ⟨"transcription_output", Document.object [("transcription", Document.str "hello")]⟩
    "hello" ConversationRole.assistant (by simp) rfl rfl

/-- C2: when no tool-use block yields the field (matching blocks lacking it
fall through rather than failing), the structured decoding equals the plain
text fallback: the first text content block, or the no-text-content error
when there is none. -/
theorem structured_decode_fallback (content : List ContentBlock)
    (role : ConversationRole)
    (hnone : ∀ b ∈ content, tool_yield b = none) :
    structured_decode ⟨some (ConverseOutputKind.message ⟨role, content⟩)⟩ =
      extract_text_from_content content := by
  simp only [structured_decode, scan_none content hnone]

/-- Witness for C2: `[ToolUse(name="transcription_output", input={}),
Text("fallback text")]` decodes to `"fallback text"`. -/
theorem structured_decode_fallback_witness :
    structured_decode
        ⟨some (ConverseOutputKind.message
          ⟨ConversationRole.assistant,
            [ContentBlock.toolUse ⟨"transcription_output", Document.object []⟩,
              ContentBlock.text "fallback text"]⟩)⟩ =
      Except.ok "fallback text" :=
  (structured_decode_fallback
      [ContentBlock.toolUse ⟨"transcription_output", Document.object []⟩,
        ContentBlock.text "fallback text"]
      ConversationRole.assistant
      (by intro b hb
          simp only [List.mem_cons, List.mem_singleton] at hb
          rcases hb with rfl | rfl | h
          · rfl
          · rfl
          · cases h)).trans rfl

/-- C10: a matching tool-use block whose input maps the field to a present
but non-string value is treated exactly as if the field were absent: the
decoding does not fail at that block and the outcome is identical to the
missing-field case. -/
theorem structured_decode_nonstring_field (m : List (String × Document))
    (d : Document) (rest : List ContentBlock) (role : ConversationRole)
    (hd : m.lookup TRANSCRIPTION_FIELD = some d)
    (hns : ∀ s, d ≠ Document.str s) :
    structured_decode
        ⟨some (ConverseOutputKind.message
          ⟨role, ContentBlock.toolUse ⟨TOOL_NAME, Document.object m⟩ :: rest⟩)⟩ =
      structured_decode
        ⟨some (ConverseOutputKind.message
          ⟨role, ContentBlock.toolUse ⟨TOOL_NAME, Document.object []⟩ :: rest⟩)⟩ := by
  have hy : tool_yield (ContentBlock.toolUse ⟨TOOL_NAME, Document.object m⟩) = none := by
    show (if TOOL_NAME = TOOL_NAME then
        extract_string_field (Document.object m) TRANSCRIPTION_FIELD else none) = none
    rw [if_pos rfl]
    simp only [extract_string_field]
    rw [hd]
    cases d with
    | str s => exact absurd rfl (hns s)
    | null => rfl
    | bool b => rfl
    | number n => rfl
    | array xs => rfl
    | object kvs => rfl
  rw [structured_decode_cons_skip _ hy (fun s h => ContentBlock.noConfusion h) role rest,
    structured_decode_cons_skip _ (by rfl) (fun s h => ContentBlock.noConfusion h) role rest]

/-- Witness for C10: a matching block whose field holds a boolean behaves
like one with an empty input, ahead of a text fallback. -/
theorem structured_decode_nonstring_field_witness :
    structured_decode
        ⟨some (ConverseOutputKind.message
          ⟨ConversationRole.assistant,
            [ContentBlock.toolUse
              ⟨TOOL_NAME, Document.object [("transcription", Document.bool true)]⟩,
              ContentBlock.text "fb"]⟩)⟩ =
      structured_decode
        ⟨some (ConverseOutputKind.message
          ⟨ConversationRole.assistant,
            [ContentBlock.toolUse ⟨TOOL_NAME, Document.object []⟩,
              ContentBlock.text "fb"]⟩)⟩ :=
  structured_decode_nonstring_field [("transcription", Document.bool true)]
    (Document.bool true) [ContentBlock.text "fb"] ConversationRole.assistant
    rfl (fun _ h => Document.noConfusion h)

/-- C5: `json_to_document` attempts numeric interpretations in order:
signed 64-bit integer first (the signed-integer wire variant), then
unsigned 64-bit integer, then 64-bit float, else the null wire value. -/
theorem json_to_document_number_order (n : JNumber) :
    (∀ i, n.as_i64 = some i →
        json_to_document (Json.num n) = Document.number (SmithyNumber.negInt i)) ∧
    (n.as_i64 = none → ∀ u, n.as_u64 = some u →
        json_to_document (Json.num n) = Document.number (SmithyNumber.posInt u)) ∧
    (n.as_i64 = none → n.as_u64 = none → ∀ f, n.as_f64 = some f →
        json_to_document (Json.num n) = Document.number (SmithyNumber.float f)) ∧
    (n.as_i64 = none → n.as_u64 = none → n.as_f64 = none →
        json_to_document (Json.num n) = Document.null) := by
  refine ⟨?_, ?_, ?_, ?_⟩
  · intro i hi
    simp only [json_to_document, hi]
  · intro h1 u hu
    simp only [json_to_document, h1, hu]
  · intro h1 h2 f hf
    simp only [json_to_document, h1, h2, hf]
  · intro h1 h2 h3
    simp only [json_to_document, h1, h2, h3]

/-- Witness for C5: the number 7 fits a signed 64-bit integer and becomes
the signed-integer wire variant. -/
theorem json_to_document_number_order_witness :
    json_to_document (Json.num (JNumber.posInt 7)) =
      Document.number (SmithyNumber.negInt 7) :=
  (json_to_document_number_order (JNumber.posInt 7)).1 7 (by decide)

/-! The round-trip between the local JSON model and the wire value. -/

mutual

theorem document_to_json_roundtrip : ∀ (v : Json), Json.wf v = true →
    document_to_json (json_to_document v) = v
  | Json.null, _ => rfl
  | Json.bool _, _ => rfl
  | Json.str _, _ => rfl
  | Json.num n, h => by
      cases n with
      | posInt u =>
          by_cases hle : u ≤ 2 ^ 63 - 1
          · simp only [json_to_document, JNumber.as_i64, if_pos hle,
              document_to_json]
            rw [if_pos (show (0 : Int) ≤ Int.ofNat u from Int.ofNat_nonneg u)]
            rfl
          · simp only [json_to_document, JNumber.as_i64, if_neg hle,
              JNumber.as_u64, document_to_json]
      | negInt i =>
          have hi : i < 0 := by
            simp only [Json.wf, JNumber.wf, Bool.and_eq_true, decide_eq_true_eq] at h
            exact h.2
          simp only [json_to_document, JNumber.as_i64, document_to_json]
          rw [if_neg (by omega)]
      | float f => rfl
  | Json.arr xs, h => by
      have hl := document_to_json_list_roundtrip xs (by simpa [Json.wf] using h)
      simp only [json_to_document, document_to_json, hl]
  | Json.obj kvs, h => by
      have hl := document_to_json_pairs_roundtrip kvs (by simpa [Json.wf] using h)
      simp only [json_to_document, document_to_json, hl]

theorem document_to_json_list_roundtrip : ∀ (xs : List Json),
    Json.list_wf xs = true →
    documents_to_jsons (jsons_to_documents xs) = xs
  | [], _ => rfl
  | x :: xs, h => by
      have hx : Json.wf x = true := by
        simp only [Json.list_wf, Bool.and_eq_true] at h
        exact h.1
      have hxs : Json.list_wf xs = true := by
        simp only [Json.list_wf, Bool.and_eq_true] at h
        exact h.2
      simp only [jsons_to_documents, documents_to_jsons,
        document_to_json_roundtrip x hx, document_to_json_list_roundtrip xs hxs]

theorem document_to_json_pairs_roundtrip : ∀ (kvs : List (String × Json)),
    Json.pairs_wf kvs = true →
    document_pairs_to_jsons (json_pairs_to_documents kvs) = kvs
  | [], _ => rfl
  | (k, v) :: rest, h => by
      have hv : Json.wf v = true := by
        simp only [Json.pairs_wf, Bool.and_eq_true] at h
        exact h.1
      have hrest : Json.pairs_wf rest = true := by
        simp only [Json.pairs_wf, Bool.and_eq_true] at h
        exact h.2
      simp only [json_pairs_to_documents, document_pairs_to_jsons,
        document_to_json_roundtrip v hv, document_to_json_pairs_roundtrip rest hrest]

end

/-- C4: for every JSON value built only from null, booleans, integral
numbers within 64-bit range, floats, strings, arrays and objects,
converting with `json_to_document` and back with the natural inverse
mapping yields the original value. -/
theorem json_document_roundtrip (v : Json) (h : Json.wf v = true) :
    document_to_json (json_to_document v) = v :=
  document_to_json_roundtrip v h

/-- Witness for C4: a value exercising all six shapes, both integer ranges
and a float, round-trips unchanged. -/
theorem json_document_roundtrip_witness :
    document_to_json (json_to_document (Json.obj
      [("a", Json.arr
        [Json.null, Json.bool true, Json.num (JNumber.posInt 3),
          Json.num (JNumber.negInt (-2)), Json.num (JNumber.float (F64.bits 17)),
          Json.str "x", Json.num (JNumber.posInt (2 ^ 63 + 5))])])) =
      Json.obj
        [("a", Json.arr
          [Json.null, Json.bool true, Json.num (JNumber.posInt 3),
            Json.num (JNumber.negInt (-2)), Json.num (JNumber.float (F64.bits 17)),
            Json.str "x", Json.num (JNumber.posInt (2 ^ 63 + 5))])] :=
  json_document_roundtrip _ (by decide)

/-- C8: the structured request attaches a tool configuration defining
exactly one tool; its JSON input schema is an object schema with exactly
one property — named `TRANSCRIPTION_FIELD`, of type string — which is
required, with additional properties disallowed; and the tool choice
forces invocation of exactly that tool by name. -/
theorem structured_request_tool_configuration (model_id : String)
    (system_prompt : Option String) (user_prompt : String) :
    (structured_request model_id system_prompt user_prompt).tool_config =
        some structured_tool_config ∧
    structured_tool_config.tools.length = 1 ∧
    structured_tool_config.tools.map ToolSpecification.name = [TOOL_NAME] ∧
    structured_tool_config.tool_choice = ToolChoice.tool TOOL_NAME ∧
    (∀ spec ∈ structured_tool_config.tools,
      ∃ kvs pkvs,
        spec.input_schema = Document.object kvs ∧
        List.lookup "type" kvs = some (Document.str "object") ∧
        List.lookup "properties" kvs =
          some (Document.object [(TRANSCRIPTION_FIELD, Document.object pkvs)]) ∧
        List.lookup "type" pkvs = some (Document.str "string") ∧
        List.lookup "required" kvs =
          some (Document.array [Document.str TRANSCRIPTION_FIELD]) ∧
        List.lookup "additionalProperties" kvs = some (Document.bool false)) := by
  refine ⟨rfl, rfl, rfl, rfl, ?_⟩
  intro spec hs
  simp only [structured_tool_config, List.mem_singleton] at hs
  subst hs
  exact ⟨_, _, rfl, rfl, rfl, rfl, rfl, rfl⟩

/-- Witness for C8: the tool configuration of a concrete structured request
is the one defined above, with the forced tool choice. -/
theorem structured_request_tool_configuration_witness :
    (structured_request "m" none "p").tool_config = some structured_tool_config ∧
      structured_tool_config.tool_choice = ToolChoice.tool TOOL_NAME :=
  ⟨(structured_request_tool_configuration "m" none "p").1,
    (structured_request_tool_configuration "m" none "p").2.2.2.1⟩

/-- C9: the outbound plain request carries exactly one user-role message
whose content is a single text block equal to the user prompt; a present
system prompt is attached as exactly one separate system-level text block,
never concatenated into the user content; an absent system prompt attaches
no system blocks. -/
theorem plain_request_shape (model_id : String) (system_prompt : Option String)
    (user_prompt : String) :
    (plain_request model_id system_prompt user_prompt).messages =
        [{ role := ConversationRole.user,
           content := [ContentBlock.text user_prompt] }] ∧
    (plain_request model_id system_prompt user_prompt).system =
        system_prompt.map (fun s => [SystemContentBlock.text s]) ∧
    (system_prompt = none →
        (plain_request model_id system_prompt user_prompt).system = none) ∧
    (∀ s, system_prompt = some s →
        (plain_request model_id system_prompt user_prompt).system =
          some [SystemContentBlock.text s]) := by
  refine ⟨rfl, rfl, ?_, ?_⟩
  · intro h
    subst h
    rfl
  · intro s h
    subst h
    rfl

/-- Witness for C9: the request for `complete(model_id="m",
system_prompt=Some("sys"), user_prompt="hi")` carries one user message with
text `"hi"` and one system block `"sys"`. -/
theorem plain_request_shape_witness :
    (plain_request "m" (some "sys") "hi").messages =
        [{ role := ConversationRole.user, content := [ContentBlock.text "hi"] }] ∧
      (plain_request "m" (some "sys") "hi").system =
        some [SystemContentBlock.text "sys"] :=
  ⟨(plain_request_shape "m" (some "sys") "hi").1,
    (plain_request_shape "m" (some "sys") "hi").2.2.2 "sys" rfl⟩

end Bedrock
